import Mathlib

/-!
Shallow embedding of the HummBot order-tracking core
(`scripts/pk/pk_strategy.py`, `scripts/pk/pk_utils.py`,
`scripts/pk/pk_triple_barrier.py`, `scripts/pk/tracked_order_details.py`,
`scripts/pk/take_profit_limit_order.py`).

Python `Decimal` values and float timestamps are modelled as exact
rationals (the quantities in the verified claims use only addition,
subtraction, multiplication and comparison, which `Decimal` performs
exactly at these magnitudes).  Python truthiness tests (`if not x`,
`x or y`) on optional numbers and strings are modelled explicitly by
`truthyOptQ` / `truthyQ` / `truthyOptStr`, matching CPython: `None`,
`0` and `""` are falsy.  The wall clock (`get_market_data_provider_time`)
and the market-data prices (mid / best bid / best ask) are injected as
parameters.  Exchange side effects (`self.buy`, `self.sell`,
`self.cancel`) are modelled as emitted `Command` values, and the locally
assigned order id that the exchange call returns is passed in as a
parameter.
-/

inductive TradeType where
  | BUY
  | SELL
deriving DecidableEq, Repr

inductive OrderType where
  | MARKET
  | LIMIT
deriving DecidableEq, Repr

inductive CloseType where
  | STOP_LOSS
  | TAKE_PROFIT
  | TIME_LIMIT
  | EXPIRED
  | EARLY_STOP
deriving DecidableEq, Repr

inductive PositionAction where
  | OPEN
  | CLOSE
deriving DecidableEq, Repr

/-- Truthiness of a Python `Decimal | None` or `float | None`: `None` and `0` are falsy. -/
def truthyOptQ : Option ℚ → Bool
  | none => false
  | some q => decide (q ≠ 0)

/-- Truthiness of a Python number: `0` is falsy. -/
def truthyQ (q : ℚ) : Bool :=
  decide (q ≠ 0)

/-- Truthiness of a Python `str | None`: `None` and `""` are falsy. -/
def truthyOptStr : Option String → Bool
  | none => false
  | some s => decide (s ≠ "")

/-- Guard `not position or position == PositionAction.CLOSE.value` used by the event handlers. -/
def isClosePosition (position : Option String) : Bool :=
  !truthyOptStr position || decide (position = some "CLOSE")

/-- Mirror of `scripts/pk/pk_triple_barrier.py` `TripleBarrier`. -/
structure TripleBarrier where
  stop_loss_delta : Option ℚ := none
  take_profit_delta : Option ℚ := none
  time_limit : Option ℚ := none
  open_order_type : OrderType := OrderType.LIMIT
  take_profit_order_type : OrderType := OrderType.LIMIT
  time_limit_order_type : OrderType := OrderType.MARKET
deriving DecidableEq, Repr

/-- Mirror of `scripts/pk/tracked_order_details.py` `TrackedOrderDetails`. -/
structure TrackedOrderDetails where
  connector_name : String
  trading_pair : String
  side : TradeType
  order_id : String
  amount : ℚ
  entry_price : ℚ
  triple_barrier : TripleBarrier
  ref : String
  created_at : ℚ
  filled_amount : ℚ := 0
  exchange_order_id : Option String := none
  last_filled_at : Option ℚ := none
  last_filled_price : Option ℚ := none
  terminated_at : Option ℚ := none
  close_type : Option CloseType := none
deriving DecidableEq, Repr

/-- Mirror of `scripts/pk/take_profit_limit_order.py` `TakeProfitLimitOrder`.
The source stores a reference to the parent `TrackedOrderDetails` object in
field `tracked_order`; every use of that reference goes through its
`.order_id`, so the embedding stores the parent's order id. -/
structure TakeProfitLimitOrder where
  order_id : String
  tracked_order : String
  amount : ℚ
  entry_price : ℚ
  created_at : ℚ
  filled_amount : ℚ := 0
  last_filled_at : Option ℚ := none
  last_filled_price : Option ℚ := none
deriving DecidableEq, Repr

/-- Fields of `scripts/savings_config.py` `ExcaliburConfig` consumed by `PkStrategy`. -/
structure ExcaliburConfig where
  connector_name : String := "hyperliquid_perpetual"
  trading_pair : String := "BTC-USD"
  leverage : ℤ := 2
  unfilled_order_expiration : ℚ := 60
  limit_take_profit_price_delta_bps : ℤ := 0
deriving DecidableEq, Repr

/-- Mirror of the `PositionExecutorConfig` fields that `PkStrategy.get_executor_config` fills in. -/
structure PositionExecutorConfig where
  timestamp : ℚ
  connector_name : String
  trading_pair : String
  side : TradeType
  entry_price : ℚ
  amount : ℚ
  leverage : ℤ
deriving DecidableEq, Repr

/-- Mutable state of a `PkStrategy` instance (`__init__`). -/
structure PkState where
  is_a_sell_order_being_created : Bool := false
  is_a_buy_order_being_created : Bool := false
  tracked_orders : List TrackedOrderDetails := []
  take_profit_limit_orders : List TakeProfitLimitOrder := []
deriving DecidableEq, Repr

/-- One exchange side effect issued by the strategy (`self.buy` / `self.sell` / `self.cancel`). -/
inductive Command where
  | submit (side : TradeType) (connector_name trading_pair : String) (amount : ℚ)
      (order_type : OrderType) (price : ℚ) (position_action : Option PositionAction)
  | cancel (connector_name trading_pair order_id : String)
deriving DecidableEq, Repr

/-- Payload of an `OrderFilledEvent` as read by `did_fill_order`. -/
structure FillEvent where
  order_id : String
  amount : ℚ
  price : ℚ
  timestamp : ℚ
  position : Option String
deriving DecidableEq, Repr

/-! pk_utils.py -/

/-- Mirror of `compute_stop_loss_price`. -/
def compute_stop_loss_price (side : TradeType) (ref_price stop_loss_delta : ℚ) : ℚ :=
  if side = TradeType.SELL then ref_price * (1 + stop_loss_delta)
  else ref_price * (1 - stop_loss_delta)

/-- Mirror of `compute_take_profit_price`. -/
def compute_take_profit_price (side : TradeType) (ref_price take_profit_delta : ℚ) : ℚ :=
  if side = TradeType.SELL then ref_price * (1 - take_profit_delta)
  else ref_price * (1 + take_profit_delta)

/-- Reference price `tracked_order.last_filled_price or tracked_order.entry_price`
(Python `or`: falls back to `entry_price` when `last_filled_price` is `None` or `0`). -/
def ref_price_of (tracked_order : TrackedOrderDetails) : ℚ :=
  if truthyOptQ tracked_order.last_filled_price then tracked_order.last_filled_price.getD 0
  else tracked_order.entry_price

/-- Mirror of `has_current_price_reached_stop_loss`. -/
def has_current_price_reached_stop_loss (tracked_order : TrackedOrderDetails)
    (current_price : ℚ) : Bool :=
  let stop_loss_delta := tracked_order.triple_barrier.stop_loss_delta
  if !truthyOptQ stop_loss_delta then false
  else
    let side := tracked_order.side
    let stop_loss_price :=
      compute_stop_loss_price side (ref_price_of tracked_order) (stop_loss_delta.getD 0)
    if side = TradeType.SELL then decide (stop_loss_price < current_price)
    else decide (current_price < stop_loss_price)

/-- Mirror of `has_current_price_reached_take_profit`. -/
def has_current_price_reached_take_profit (tracked_order : TrackedOrderDetails)
    (current_price : ℚ) : Bool :=
  let take_profit_delta := tracked_order.triple_barrier.take_profit_delta
  if !truthyOptQ take_profit_delta then false
  else
    let side := tracked_order.side
    let take_profit_price :=
      compute_take_profit_price side (ref_price_of tracked_order) (take_profit_delta.getD 0)
    if side = TradeType.SELL then decide (current_price < take_profit_price)
    else decide (take_profit_price < current_price)

/-- Mirror of `has_unfilled_order_expired`. -/
def has_unfilled_order_expired (order : TrackedOrderDetails) (expiration current_timestamp : ℚ) :
    Bool :=
  decide (order.created_at + expiration < current_timestamp)

/-- Mirror of `has_filled_order_reached_time_limit`.  The source reads
`tracked_order.last_filled_at` without a `None` check (it is only called on
filled orders); the embedding reads it with default `0`. -/
def has_filled_order_reached_time_limit (tracked_order : TrackedOrderDetails)
    (current_timestamp : ℚ) : Bool :=
  let time_limit := tracked_order.triple_barrier.time_limit
  if !truthyOptQ time_limit then false
  else decide (tracked_order.last_filled_at.getD 0 + time_limit.getD 0 < current_timestamp)

/-! pk_strategy.py: queries -/

/-- Mirror of `get_executor_config` (`amount = amount_quote / entry_price`). -/
def get_executor_config (cfg : ExcaliburConfig) (now : ℚ) (side : TradeType)
    (entry_price amount_quote : ℚ) : PositionExecutorConfig :=
  { timestamp := now
    connector_name := cfg.connector_name
    trading_pair := cfg.trading_pair
    side := side
    entry_price := entry_price
    amount := amount_quote / entry_price
    leverage := cfg.leverage }

/-- Mirror of `find_tracked_order_of_id`. -/
def find_tracked_order_of_id (s : PkState) (order_id : String) : Option TrackedOrderDetails :=
  (s.tracked_orders.filter (fun o => decide (o.order_id = order_id))).head?

/-- Filter of `find_last_terminated_filled_order`: same side and ref, truthy
`last_filled_at` and truthy `terminated_at`. -/
def terminatedFilledFilter (side : TradeType) (ref : String) (o : TrackedOrderDetails) : Bool :=
  decide (o.side = side) && decide (o.ref = ref) &&
    truthyOptQ o.last_filled_at && truthyOptQ o.terminated_at

/-- Mirror of `find_last_terminated_filled_order`: `max(..., key=terminated_at)`
(CPython `max` keeps the first element among ties and replaces only on a
strictly larger key). -/
def find_last_terminated_filled_order (s : PkState) (side : TradeType) (ref : String) :
    Option TrackedOrderDetails :=
  match s.tracked_orders.filter (terminatedFilledFilter side ref) with
  | [] => none
  | x :: rest =>
    some (rest.foldl
      (fun best o => if best.terminated_at.getD 0 < o.terminated_at.getD 0 then o else best) x)

/-- Active filter of `get_active_tracked_orders`: truthy `created_at` and falsy `terminated_at`. -/
def activeFilter (o : TrackedOrderDetails) : Bool :=
  truthyQ o.created_at && !truthyOptQ o.terminated_at

/-- Mirror of `get_active_tracked_orders` (the `ref` argument is filtered on only when truthy). -/
def get_active_tracked_orders (s : PkState) (ref : Option String) : List TrackedOrderDetails :=
  let active := s.tracked_orders.filter activeFilter
  if truthyOptStr ref then active.filter (fun o => decide (o.ref = ref.getD "")) else active

/-- Mirror of `get_active_tracked_orders_by_side`. -/
def get_active_tracked_orders_by_side (s : PkState) (ref : Option String) :
    List TrackedOrderDetails × List TrackedOrderDetails :=
  let active := get_active_tracked_orders s ref
  (active.filter (fun o => decide (o.side = TradeType.SELL)),
   active.filter (fun o => decide (o.side = TradeType.BUY)))

/-- Mirror of `get_unfilled_tracked_orders_by_side`. -/
def get_unfilled_tracked_orders_by_side (s : PkState) (ref : Option String) :
    List TrackedOrderDetails × List TrackedOrderDetails :=
  ((get_active_tracked_orders_by_side s ref).1.filter (fun o => !truthyOptQ o.last_filled_at),
   (get_active_tracked_orders_by_side s ref).2.filter (fun o => !truthyOptQ o.last_filled_at))

/-- Mirror of `get_filled_tracked_orders_by_side`. -/
def get_filled_tracked_orders_by_side (s : PkState) (ref : Option String) :
    List TrackedOrderDetails × List TrackedOrderDetails :=
  ((get_active_tracked_orders_by_side s ref).1.filter (fun o => truthyOptQ o.last_filled_at),
   (get_active_tracked_orders_by_side s ref).2.filter (fun o => truthyOptQ o.last_filled_at))

/-- Take-profit orders with falsy `last_filled_at` whose parent id matches, over an
explicit take-profit list (`get_unfilled_tp_limit_orders` applies it to the state's list). -/
def unfilled_tp_limit_orders_for (tps : List TakeProfitLimitOrder)
    (tracked_order : TrackedOrderDetails) : List TakeProfitLimitOrder :=
  (tps.filter (fun o => !truthyOptQ o.last_filled_at)).filter
    (fun o => decide (o.tracked_order = tracked_order.order_id))

/-- Mirror of `get_unfilled_tp_limit_orders`. -/
def get_unfilled_tp_limit_orders (s : PkState) (tracked_order : TrackedOrderDetails) :
    List TakeProfitLimitOrder :=
  unfilled_tp_limit_orders_for s.take_profit_limit_orders tracked_order

/-- Mirror of `get_all_filled_tp_limit_orders`. -/
def get_all_filled_tp_limit_orders (s : PkState) : List TakeProfitLimitOrder :=
  s.take_profit_limit_orders.filter (fun o => truthyOptQ o.last_filled_at)

/-! pk_strategy.py: mutations and event handlers -/

/-- Loop of `close_filled_order` / `did_cancel_order` over `self.tracked_orders`:
set `terminated_at` and `close_type` on the first order with the given id, `break`. -/
def terminate_first_match (order_id : String) (now : ℚ) (close_type : CloseType) :
    List TrackedOrderDetails → List TrackedOrderDetails
  | [] => []
  | o :: rest =>
    if o.order_id = order_id then
      { o with terminated_at := some now, close_type := some close_type } :: rest
    else o :: terminate_first_match order_id now close_type rest

/-- Loop of `did_create_sell_order` / `did_create_buy_order` over `self.tracked_orders`:
set `exchange_order_id` on the first order with the given id, `break`. -/
def set_exchange_order_id_first_match (order_id exchange_order_id : String) :
    List TrackedOrderDetails → List TrackedOrderDetails
  | [] => []
  | o :: rest =>
    if o.order_id = order_id then
      { o with exchange_order_id := some exchange_order_id } :: rest
    else o :: set_exchange_order_id_first_match order_id exchange_order_id rest

/-- The `self.take_profit_limit_orders.remove(order)` step of `did_cancel_order`:
remove the first take-profit order with the given id. -/
def remove_first_tp_match (order_id : String) :
    List TakeProfitLimitOrder → List TakeProfitLimitOrder
  | [] => []
  | o :: rest =>
    if o.order_id = order_id then rest else o :: remove_first_tp_match order_id rest

/-- Outcome of `create_individual_order`; `raised = true` models the Python call
propagating an exception out of the inner `self.sell` / `self.buy` call, leaving
the mutations already performed in place. -/
structure CreateOutcome where
  state : PkState
  cmds : List Command
  raised : Bool
deriving DecidableEq, Repr

/-- Result of the inner exchange `self.sell` / `self.buy` call inside
`create_individual_order`: either the locally assigned order id, or an exception. -/
inductive ExchangeResult where
  | ok (order_id : String)
  | raised
deriving DecidableEq, Repr

/-- Mirror of `create_individual_order`.  The source sets the per-side latch, calls
`self.sell` / `self.buy`, appends the new `TrackedOrderDetails`, then clears the
latch — with no `try/finally`: when the exchange call raises, everything after it
(including the latch reset) is skipped. -/
def create_individual_order (executor_config : PositionExecutorConfig)
    (triple_barrier : TripleBarrier) (ref : String) (exchange_result : ExchangeResult)
    (now : ℚ) (s : PkState) : CreateOutcome :=
  let connector_name := executor_config.connector_name
  let trading_pair := executor_config.trading_pair
  let amount := executor_config.amount
  let entry_price := executor_config.entry_price
  let open_order_type := triple_barrier.open_order_type
  if executor_config.side = TradeType.SELL then
    let s1 := { s with is_a_sell_order_being_created := true }
    match exchange_result with
    | ExchangeResult.raised => ⟨s1, [], true⟩
    | ExchangeResult.ok order_id =>
      let s2 := { s1 with tracked_orders := s1.tracked_orders ++
        [({ connector_name := connector_name, trading_pair := trading_pair,
            side := TradeType.SELL, order_id := order_id, amount := amount,
            entry_price := entry_price, triple_barrier := triple_barrier,
            ref := ref, created_at := now } : TrackedOrderDetails)] }
      ⟨{ s2 with is_a_sell_order_being_created := false },
       [Command.submit TradeType.SELL connector_name trading_pair amount open_order_type
          entry_price none], false⟩
  else
    let s1 := { s with is_a_buy_order_being_created := true }
    match exchange_result with
    | ExchangeResult.raised => ⟨s1, [], true⟩
    | ExchangeResult.ok order_id =>
      let s2 := { s1 with tracked_orders := s1.tracked_orders ++
        [({ connector_name := connector_name, trading_pair := trading_pair,
            side := TradeType.BUY, order_id := order_id, amount := amount,
            entry_price := entry_price, triple_barrier := triple_barrier,
            ref := ref, created_at := now } : TrackedOrderDetails)] }
      ⟨{ s2 with is_a_buy_order_being_created := false },
       [Command.submit TradeType.BUY connector_name trading_pair amount open_order_type
          entry_price none], false⟩

/-- Mirror of `create_order`. -/
def create_order (cfg : ExcaliburConfig) (now : ℚ) (side : TradeType) (entry_price : ℚ)
    (triple_barrier : TripleBarrier) (amount_quote : ℚ) (ref : String)
    (exchange_result : ExchangeResult) (s : PkState) : CreateOutcome :=
  create_individual_order (get_executor_config cfg now side entry_price amount_quote)
    triple_barrier ref exchange_result now s

/-- Mirror of `create_tp_limit_order`; `new_order_id` is the id returned by the
exchange `self.sell` / `self.buy` call. -/
def create_tp_limit_order (cfg : ExcaliburConfig) (now : ℚ) (new_order_id : String)
    (tracked_order : TrackedOrderDetails) (amount entry_price : ℚ) (s : PkState) :
    PkState × List Command :=
  let side := if tracked_order.side = TradeType.BUY then TradeType.SELL else TradeType.BUY
  let trading_pair := tracked_order.trading_pair
  let executor_config := get_executor_config cfg now side entry_price amount
  let connector_name := executor_config.connector_name
  ({ s with take_profit_limit_orders := s.take_profit_limit_orders ++
      [({ order_id := new_order_id, tracked_order := tracked_order.order_id,
          amount := amount, entry_price := entry_price, created_at := now } :
          TakeProfitLimitOrder)] },
   [Command.submit side connector_name trading_pair amount OrderType.LIMIT entry_price
      (some PositionAction.CLOSE)])

/-- Mirror of `close_filled_order`.  `best_bid` / `best_ask` are the injected
market-data prices; the `Decimal(1 ± bps/10000)` factors are modelled as exact
rationals. -/
def close_filled_order (cfg : ExcaliburConfig) (best_bid best_ask now : ℚ)
    (filled_order : TrackedOrderDetails) (market_or_limit : OrderType)
    (close_type : CloseType) (s : PkState) : PkState × List Command :=
  let connector_name := filled_order.connector_name
  let trading_pair := filled_order.trading_pair
  let filled_amount := filled_order.filled_amount
  let close_price_sell := best_bid * (1 - (cfg.limit_take_profit_price_delta_bps : ℚ) / 10000)
  let close_price_buy := best_ask * (1 + (cfg.limit_take_profit_price_delta_bps : ℚ) / 10000)
  let cmd :=
    if filled_order.side = TradeType.SELL then
      Command.submit TradeType.BUY connector_name trading_pair filled_amount market_or_limit
        close_price_sell (some PositionAction.CLOSE)
    else
      Command.submit TradeType.SELL connector_name trading_pair filled_amount market_or_limit
        close_price_buy (some PositionAction.CLOSE)
  ({ s with tracked_orders :=
      terminate_first_match filled_order.order_id now close_type s.tracked_orders },
   [cmd])

/-- Mirror of `cancel_unfilled_order` (issues one exchange cancel). -/
def cancel_unfilled_order (tracked_order : TrackedOrderDetails) : Command :=
  Command.cancel tracked_order.connector_name tracked_order.trading_pair tracked_order.order_id

/-- Mirror of `cancel_take_profit_for_order` (issues one cancel per unfilled
take-profit order of the given tracked order). -/
def cancel_take_profit_for_order (s : PkState) (filled_order : TrackedOrderDetails) :
    List Command :=
  (get_unfilled_tp_limit_orders s filled_order).map
    (fun tp => Command.cancel filled_order.connector_name filled_order.trading_pair tp.order_id)

/-- Shared body of `did_create_sell_order` / `did_create_buy_order`. -/
def did_create_order (position : Option String) (event_order_id exchange_order_id : String)
    (s : PkState) : PkState :=
  if isClosePosition position then s
  else { s with tracked_orders :=
    set_exchange_order_id_first_match event_order_id exchange_order_id s.tracked_orders }

/-- Inner loop of `did_fill_order`'s close branch over `self.tracked_orders`:
decrement the parent's `filled_amount`; when it lands on exactly `0`, set
`terminated_at` to the fill timestamp and `close_type` to take-profit. -/
def apply_tp_parent_fill (parent_order_id : String) (fill_amount fill_timestamp : ℚ) :
    List TrackedOrderDetails → List TrackedOrderDetails
  | [] => []
  | o :: rest =>
    if o.order_id = parent_order_id then
      (if o.filled_amount - fill_amount = 0 then
        { o with filled_amount := o.filled_amount - fill_amount,
                 terminated_at := some fill_timestamp,
                 close_type := some CloseType.TAKE_PROFIT }
      else
        { o with filled_amount := o.filled_amount - fill_amount } :
        TrackedOrderDetails) :: rest
    else o :: apply_tp_parent_fill parent_order_id fill_amount fill_timestamp rest

/-- Outer loop of `did_fill_order`'s close branch over `self.take_profit_limit_orders`:
accumulate the fill on the first matching take-profit order (which stays in the
list), then update its parent tracked order. -/
def apply_tp_fill (ev : FillEvent) :
    List TakeProfitLimitOrder → List TrackedOrderDetails →
    List TakeProfitLimitOrder × List TrackedOrderDetails
  | [], tracked => ([], tracked)
  | tp :: rest, tracked =>
    if tp.order_id = ev.order_id then
      ({ tp with filled_amount := tp.filled_amount + ev.amount,
                 last_filled_at := some ev.timestamp,
                 last_filled_price := some ev.price } :: rest,
       apply_tp_parent_fill tp.tracked_order ev.amount ev.timestamp tracked)
    else
      ((tp :: (apply_tp_fill ev rest tracked).1), (apply_tp_fill ev rest tracked).2)

/-- Loop of `did_fill_order`'s entry branch over `self.tracked_orders`: accumulate
the fill on the first matching tracked order and return the updated order (the
source keeps mutating the very object it later hands to `create_tp_limit_order`). -/
def apply_entry_fill (ev : FillEvent) :
    List TrackedOrderDetails → Option (List TrackedOrderDetails × TrackedOrderDetails)
  | [] => none
  | o :: rest =>
    if o.order_id = ev.order_id then
      let o2 := { o with filled_amount := o.filled_amount + ev.amount,
                         last_filled_at := some ev.timestamp,
                         last_filled_price := some ev.price }
      some (o2 :: rest, o2)
    else
      match apply_entry_fill ev rest with
      | none => none
      | some (rest2, upd) => some (o :: rest2, upd)

/-- Mirror of `did_fill_order`; `tp_order_id` is the exchange-assigned id consumed by
`create_tp_limit_order` when an entry fill spawns a take-profit limit order. -/
def did_fill_order (cfg : ExcaliburConfig) (now : ℚ) (tp_order_id : String) (ev : FillEvent)
    (s : PkState) : PkState × List Command :=
  if isClosePosition ev.position then
    let r := apply_tp_fill ev s.take_profit_limit_orders s.tracked_orders
    ({ s with take_profit_limit_orders := r.1, tracked_orders := r.2 }, [])
  else
    match apply_entry_fill ev s.tracked_orders with
    | none => (s, [])
    | some (tracked, updated) =>
      let s1 := { s with tracked_orders := tracked }
      let take_profit_delta := updated.triple_barrier.take_profit_delta
      let tp_order_type := updated.triple_barrier.take_profit_order_type
      if truthyOptQ take_profit_delta && decide (tp_order_type = OrderType.LIMIT) then
        let take_profit_price :=
          compute_take_profit_price updated.side ev.price (take_profit_delta.getD 0)
        create_tp_limit_order cfg now tp_order_id updated ev.amount take_profit_price s1
      else (s1, [])

/-- Mirror of `did_cancel_order`. -/
def did_cancel_order (now : ℚ) (event_order_id : String) (s : PkState) : PkState :=
  { s with
    tracked_orders := terminate_first_match event_order_id now CloseType.EXPIRED s.tracked_orders
    take_profit_limit_orders := remove_first_tp_match event_order_id s.take_profit_limit_orders }

/-- Mirror of `can_create_order`. -/
def can_create_order (side : TradeType) (amount_quote : ℚ) (ref : String)
    (cooldown_time_min : ℚ) (now : ℚ) (s : PkState) : Bool :=
  if amount_quote = 0 then false
  else if decide (side = TradeType.SELL) && s.is_a_sell_order_being_created then false
  else if decide (side = TradeType.BUY) && s.is_a_buy_order_being_created then false
  else
    match find_last_terminated_filled_order s side ref with
    | none => true
    | some last =>
      if last.terminated_at.getD 0 + cooldown_time_min * 60 > now then false else true

/-! pk_strategy.py: periodic check loop -/

/-- Mirror of `check_unfilled_orders` (emits cancel commands, mutates nothing). -/
def check_unfilled_orders (cfg : ExcaliburConfig) (now : ℚ) (s : PkState) : List Command :=
  if !truthyQ cfg.unfilled_order_expiration then []
  else
    (((get_unfilled_tracked_orders_by_side s none).1
        ++ (get_unfilled_tracked_orders_by_side s none).2).filter
      (fun o => has_unfilled_order_expired o cfg.unfilled_order_expiration now)).map
      cancel_unfilled_order

/-- One close action performed by `check_trading_orders`: the order closed, the
`CloseType` and the `OrderType` it was closed with (the arguments of the
corresponding `close_filled_order` call). -/
abbrev CloseAction := String × CloseType × OrderType

/-- Body of the `check_trading_orders` loop for one filled order, threading the
state and accumulating the emitted commands and the `close_filled_order` call trace. -/
def check_trading_step (cfg : ExcaliburConfig) (current_price best_bid best_ask now : ℚ)
    (acc : PkState × List Command × List CloseAction) (filled_order : TrackedOrderDetails) :
    PkState × List Command × List CloseAction :=
  let st := acc.1
  let cmds := acc.2.1
  let closes := acc.2.2
  if has_current_price_reached_stop_loss filled_order current_price then
    let r := close_filled_order cfg best_bid best_ask now filled_order OrderType.MARKET
      CloseType.STOP_LOSS st
    let c3 := cancel_take_profit_for_order r.1 filled_order
    (r.1, cmds ++ r.2 ++ c3, closes ++ [(filled_order.order_id, CloseType.STOP_LOSS,
      OrderType.MARKET)])
  else if decide ((get_unfilled_tp_limit_orders st filled_order).length = 0) &&
      has_current_price_reached_take_profit filled_order current_price then
    let take_profit_order_type := filled_order.triple_barrier.take_profit_order_type
    let r := close_filled_order cfg best_bid best_ask now filled_order take_profit_order_type
      CloseType.TAKE_PROFIT st
    (r.1, cmds ++ r.2, closes ++ [(filled_order.order_id, CloseType.TAKE_PROFIT,
      take_profit_order_type)])
  else if has_filled_order_reached_time_limit filled_order now then
    let time_limit_order_type := filled_order.triple_barrier.time_limit_order_type
    let r := close_filled_order cfg best_bid best_ask now filled_order time_limit_order_type
      CloseType.TIME_LIMIT st
    let c3 := cancel_take_profit_for_order r.1 filled_order
    (r.1, cmds ++ r.2 ++ c3, closes ++ [(filled_order.order_id, CloseType.TIME_LIMIT,
      time_limit_order_type)])
  else acc

/-- Mirror of `check_trading_orders`: `current_price` is the mid price,
`best_bid` / `best_ask` feed the `close_filled_order` calls. -/
def check_trading_orders (cfg : ExcaliburConfig) (current_price best_bid best_ask now : ℚ)
    (s : PkState) : PkState × List Command × List CloseAction :=
  ((get_filled_tracked_orders_by_side s none).1
      ++ (get_filled_tracked_orders_by_side s none).2).foldl
    (check_trading_step cfg current_price best_bid best_ask now) (s, [], [])

/-- Mirror of `check_orders` (unfilled expiry pass, then trading-exit pass). -/
def check_orders (cfg : ExcaliburConfig) (current_price best_bid best_ask now : ℚ)
    (s : PkState) : PkState × List Command × List CloseAction :=
  let unfilled_cmds := check_unfilled_orders cfg now s
  let r := check_trading_orders cfg current_price best_bid best_ask now s
  (r.1, unfilled_cmds ++ r.2.1, r.2.2)

/-- Exit decision of one `check_trading_orders` iteration for one order, over a fixed
take-profit list: the `close_filled_order` call it performs, if any. -/
def exit_action_of (tps : List TakeProfitLimitOrder) (current_price now : ℚ)
    (o : TrackedOrderDetails) : Option CloseAction :=
  if has_current_price_reached_stop_loss o current_price then
    some (o.order_id, CloseType.STOP_LOSS, OrderType.MARKET)
  else if decide ((unfilled_tp_limit_orders_for tps o).length = 0) &&
      has_current_price_reached_take_profit o current_price then
    some (o.order_id, CloseType.TAKE_PROFIT, o.triple_barrier.take_profit_order_type)
  else if has_filled_order_reached_time_limit o now then
    some (o.order_id, CloseType.TIME_LIMIT, o.triple_barrier.time_limit_order_type)
  else none

/-! Concrete instances used by counterexamples and witnesses -/

/-- Configuration with a 100 bps (1%) close-price delta. -/
def cfg0 : ExcaliburConfig :=
  { connector_name := "conn", trading_pair := "BTC-USD", leverage := 2,
    unfilled_order_expiration := 60, limit_take_profit_price_delta_bps := 100 }

/-- Barrier with 2% stop-loss, 3% limit take-profit and a 100 s time limit. -/
def tb0 : TripleBarrier :=
  { stop_loss_delta := some (1/50), take_profit_delta := some (3/100), time_limit := some 100 }

/-- Filled sell order used by the close-price counterexample. -/
def oSell0 : TrackedOrderDetails :=
  { connector_name := "conn", trading_pair := "BTC-USD", side := TradeType.SELL,
    order_id := "o1", amount := 2, entry_price := 100, triple_barrier := tb0, ref := "R",
    created_at := 1, filled_amount := 2, last_filled_at := some 3,
    last_filled_price := some 100 }

/-- State holding just `oSell0`. -/
def sSell0 : PkState := { tracked_orders := [oSell0] }

/-- Already-terminated tracked order (terminated at time 10). -/
def oTerm0 : TrackedOrderDetails :=
  { connector_name := "conn", trading_pair := "BTC-USD", side := TradeType.BUY,
    order_id := "b1", amount := 1, entry_price := 100, triple_barrier := tb0, ref := "R",
    created_at := 1, filled_amount := 1, last_filled_at := some 2,
    last_filled_price := some 100, terminated_at := some 10,
    close_type := some CloseType.STOP_LOSS }

/-- State holding just `oTerm0`. -/
def sTerm0 : PkState := { tracked_orders := [oTerm0] }

/-- Executor configuration for a sell creation (entry 100, 50 quote). -/
def ecSell0 : PositionExecutorConfig :=
  get_executor_config cfg0 5 TradeType.SELL 100 50

/-- Round-trip scenario of claim C8, step 1: create a buy order (entry 100,
50 quote, take-profit delta 3% with limit order type). -/
def rts1 : PkState :=
  (create_order cfg0 5 TradeType.BUY 100 tb0 50 "R" (ExchangeResult.ok "o1") { }).state

/-- Round-trip step 2: the creation-confirmation event for "o1". -/
def rts2 : PkState := did_create_order (some "OPEN") "o1" "x1" rts1

/-- Entry fill event filling "o1" fully. -/
def fillEv1 : FillEvent :=
  { order_id := "o1", amount := 1/2, price := 100, timestamp := 6, position := some "OPEN" }

/-- Round-trip step 3: the entry fill (spawns the take-profit limit order "t1"). -/
def rts3 : PkState := (did_fill_order cfg0 6 "t1" fillEv1 rts2).1

/-- Close fill event filling the take-profit order "t1" fully. -/
def fillEv2 : FillEvent :=
  { order_id := "t1", amount := 1/2, price := 103, timestamp := 7, position := some "CLOSE" }

/-- Round-trip final state: after the take-profit fill. -/
def round_trip_state : PkState := (did_fill_order cfg0 7 "t2" fillEv2 rts3).1

/-- Expected tracked order after round-trip step 1. -/
def rtOrder1 : TrackedOrderDetails :=
  { connector_name := "conn", trading_pair := "BTC-USD", side := TradeType.BUY,
    order_id := "o1", amount := 1/2, entry_price := 100, triple_barrier := tb0,
    ref := "R", created_at := 5 }

/-- Expected tracked order after round-trip step 2. -/
def rtOrder2 : TrackedOrderDetails := { rtOrder1 with exchange_order_id := some "x1" }

/-- Expected tracked order after round-trip step 3. -/
def rtOrder3 : TrackedOrderDetails :=
  { rtOrder2 with filled_amount := 1/2, last_filled_at := some 6,
                  last_filled_price := some 100 }

/-- Expected take-profit limit order after round-trip step 3. -/
def rtTp1 : TakeProfitLimitOrder :=
  { order_id := "t1", tracked_order := "o1", amount := 1/2, entry_price := 103,
    created_at := 6 }

/-- Expected tracked order in the round-trip final state. -/
def rtOrder4 : TrackedOrderDetails :=
  { rtOrder3 with filled_amount := 0, terminated_at := some 7,
                  close_type := some CloseType.TAKE_PROFIT }

/-- Expected take-profit limit order in the round-trip final state. -/
def rtTp2 : TakeProfitLimitOrder :=
  { rtTp1 with filled_amount := 1/2, last_filled_at := some 7,
               last_filled_price := some 103 }

/-- Sell order filled at 100 with a 2% stop-loss delta (claim C9). -/
def oNum0 : TrackedOrderDetails :=
  { connector_name := "conn", trading_pair := "BTC-USD", side := TradeType.SELL,
    order_id := "n1", amount := 1, entry_price := 90,
    triple_barrier := { stop_loss_delta := some (2/100) }, ref := "R",
    created_at := 1, filled_amount := 1, last_filled_at := some 2,
    last_filled_price := some 100 }

/-- Order whose barrier carries zero-valued deltas (claim C10). -/
def oZero0 : TrackedOrderDetails :=
  { connector_name := "conn", trading_pair := "BTC-USD", side := TradeType.SELL,
    order_id := "z1", amount := 1, entry_price := 100,
    triple_barrier := { stop_loss_delta := some 0, take_profit_delta := some 0 }, ref := "R",
    created_at := 1, filled_amount := 1, last_filled_at := some 2,
    last_filled_price := some 100 }

/-- State holding the filled parent order `rtOrder3` and its resting take-profit
order `rtTp1` (claim C3 witness). -/
def sC3 : PkState :=
  { tracked_orders := [rtOrder3], take_profit_limit_orders := [rtTp1] }

/-- Terminated-and-filled buy order for ref "R" with `terminated_at = 1000`
(claim C5 witness). -/
def oCd0 : TrackedOrderDetails :=
  { connector_name := "conn", trading_pair := "BTC-USD", side := TradeType.BUY,
    order_id := "c1", amount := 1, entry_price := 100, triple_barrier := tb0, ref := "R",
    created_at := 1, filled_amount := 1, last_filled_at := some 2,
    last_filled_price := some 100, terminated_at := some 1000,
    close_type := some CloseType.TAKE_PROFIT }

/-- State holding just `oCd0`. -/
def sCd0 : PkState := { tracked_orders := [oCd0] }

/-- Filled sell order meeting both the stop-loss and the time-limit condition at
mid price 103 and time 20 (claim C6 witness). -/
def oC6 : TrackedOrderDetails :=
  { connector_name := "conn", trading_pair := "BTC-USD", side := TradeType.SELL,
    order_id := "s6", amount := 1, entry_price := 100,
    triple_barrier := { stop_loss_delta := some (1/50), time_limit := some 10 }, ref := "R",
    created_at := 1, filled_amount := 1, last_filled_at := some 2,
    last_filled_price := some 100 }

/-- State holding just `oC6`. -/
def sC6 : PkState := { tracked_orders := [oC6] }

/-! Helper lemmas -/

theorem terminate_first_match_find? (order_id : String) (now : ℚ) (close_type : CloseType)
    (l : List TrackedOrderDetails) (m : TrackedOrderDetails)
    (h : l.find? (fun t => decide (t.order_id = order_id)) = some m) :
    (terminate_first_match order_id now close_type l).find?
        (fun t => decide (t.order_id = order_id))
      = some { m with terminated_at := some now, close_type := some close_type } := by
  induction l with
  | nil => simp at h
  | cons o rest ih =>
    by_cases ho : o.order_id = order_id
    · rw [List.find?_cons_of_pos (p := fun t : TrackedOrderDetails => decide (t.order_id = order_id)) _
        (by simp [ho])] at h
      cases h
      simp only [terminate_first_match, if_pos ho]
      rw [List.find?_cons_of_pos (p := fun t : TrackedOrderDetails => decide (t.order_id = order_id)) _
        (by simp [ho])]
    · rw [List.find?_cons_of_neg (p := fun t : TrackedOrderDetails => decide (t.order_id = order_id)) _
        (by simp [ho])] at h
      simp only [terminate_first_match, if_neg ho]
      rw [List.find?_cons_of_neg (p := fun t : TrackedOrderDetails => decide (t.order_id = order_id)) _
        (by simp [ho])]
      exact ih h

theorem terminate_first_match_no_match (order_id : String) (now : ℚ) (close_type : CloseType)
    (l : List TrackedOrderDetails) (h : ∀ t ∈ l, t.order_id ≠ order_id) :
    terminate_first_match order_id now close_type l = l := by
  induction l with
  | nil => rfl
  | cons o rest ih =>
    have ho := h o (List.mem_cons_self o rest)
    simp only [terminate_first_match, if_neg ho]
    rw [ih (fun t ht => h t (List.mem_cons_of_mem o ht))]

theorem set_exchange_order_id_no_match (order_id exchange_order_id : String)
    (l : List TrackedOrderDetails) (h : ∀ t ∈ l, t.order_id ≠ order_id) :
    set_exchange_order_id_first_match order_id exchange_order_id l = l := by
  induction l with
  | nil => rfl
  | cons o rest ih =>
    have ho := h o (List.mem_cons_self o rest)
    simp only [set_exchange_order_id_first_match, if_neg ho]
    rw [ih (fun t ht => h t (List.mem_cons_of_mem o ht))]

theorem remove_first_tp_no_match (order_id : String) (l : List TakeProfitLimitOrder)
    (h : ∀ t ∈ l, t.order_id ≠ order_id) :
    remove_first_tp_match order_id l = l := by
  induction l with
  | nil => rfl
  | cons o rest ih =>
    have ho := h o (List.mem_cons_self o rest)
    simp only [remove_first_tp_match, if_neg ho]
    rw [ih (fun t ht => h t (List.mem_cons_of_mem o ht))]

theorem apply_tp_fill_no_match (ev : FillEvent) (tps : List TakeProfitLimitOrder)
    (tracked : List TrackedOrderDetails) (h : ∀ tp ∈ tps, tp.order_id ≠ ev.order_id) :
    apply_tp_fill ev tps tracked = (tps, tracked) := by
  induction tps with
  | nil => rfl
  | cons tp rest ih =>
    have htp := h tp (List.mem_cons_self tp rest)
    simp only [apply_tp_fill, if_neg htp]
    rw [ih (fun t ht => h t (List.mem_cons_of_mem tp ht))]

theorem apply_entry_fill_no_match (ev : FillEvent) (l : List TrackedOrderDetails)
    (h : ∀ t ∈ l, t.order_id ≠ ev.order_id) :
    apply_entry_fill ev l = none := by
  induction l with
  | nil => rfl
  | cons o rest ih =>
    have ho := h o (List.mem_cons_self o rest)
    simp only [apply_entry_fill, if_neg ho]
    rw [ih (fun t ht => h t (List.mem_cons_of_mem o ht))]

theorem apply_tp_parent_fill_find? (parent_order_id : String) (fill_amount fill_timestamp : ℚ)
    (l : List TrackedOrderDetails) (m : TrackedOrderDetails)
    (h : l.find? (fun t => decide (t.order_id = parent_order_id)) = some m) :
    (apply_tp_parent_fill parent_order_id fill_amount fill_timestamp l).find?
        (fun t => decide (t.order_id = parent_order_id))
      = some (if m.filled_amount - fill_amount = 0 then
          { m with filled_amount := m.filled_amount - fill_amount,
                   terminated_at := some fill_timestamp,
                   close_type := some CloseType.TAKE_PROFIT }
        else { m with filled_amount := m.filled_amount - fill_amount }) := by
  induction l with
  | nil => simp at h
  | cons o rest ih =>
    by_cases ho : o.order_id = parent_order_id
    · rw [List.find?_cons_of_pos
        (p := fun t : TrackedOrderDetails => decide (t.order_id = parent_order_id)) _
        (by simp [ho])] at h
      cases h
      simp only [apply_tp_parent_fill, if_pos ho]
      by_cases hc : m.filled_amount - fill_amount = 0
      · simp only [if_pos hc]
        rw [List.find?_cons_of_pos
          (p := fun t : TrackedOrderDetails => decide (t.order_id = parent_order_id)) _
          (by simp [ho])]
      · simp only [if_neg hc]
        rw [List.find?_cons_of_pos
          (p := fun t : TrackedOrderDetails => decide (t.order_id = parent_order_id)) _
          (by simp [ho])]
    · rw [List.find?_cons_of_neg
        (p := fun t : TrackedOrderDetails => decide (t.order_id = parent_order_id)) _
        (by simp [ho])] at h
      simp only [apply_tp_parent_fill, if_neg ho]
      rw [List.find?_cons_of_neg
        (p := fun t : TrackedOrderDetails => decide (t.order_id = parent_order_id)) _
        (by simp [ho])]
      exact ih h

theorem apply_tp_fill_spec (ev : FillEvent) (tps : List TakeProfitLimitOrder)
    (tracked : List TrackedOrderDetails) (tp : TakeProfitLimitOrder)
    (h : tps.find? (fun t => decide (t.order_id = ev.order_id)) = some tp) :
    (apply_tp_fill ev tps tracked).2
        = apply_tp_parent_fill tp.tracked_order ev.amount ev.timestamp tracked ∧
    (apply_tp_fill ev tps tracked).1.length = tps.length ∧
    (apply_tp_fill ev tps tracked).1.find? (fun t => decide (t.order_id = ev.order_id))
      = some { tp with filled_amount := tp.filled_amount + ev.amount,
                       last_filled_at := some ev.timestamp,
                       last_filled_price := some ev.price } := by
  induction tps with
  | nil => simp at h
  | cons x rest ih =>
    by_cases hx : x.order_id = ev.order_id
    · rw [List.find?_cons_of_pos
        (p := fun t : TakeProfitLimitOrder => decide (t.order_id = ev.order_id)) _
        (by simp [hx])] at h
      cases h
      refine ⟨by simp [apply_tp_fill, hx], by simp [apply_tp_fill, hx], ?_⟩
      simp only [apply_tp_fill, if_pos hx]
      rw [List.find?_cons_of_pos
        (p := fun t : TakeProfitLimitOrder => decide (t.order_id = ev.order_id)) _
        (by simp [hx])]
    · rw [List.find?_cons_of_neg
        (p := fun t : TakeProfitLimitOrder => decide (t.order_id = ev.order_id)) _
        (by simp [hx])] at h
      obtain ⟨h1, h2, h3⟩ := ih h
      simp only [apply_tp_fill, if_neg hx]
      refine ⟨h1, by simp [h2], ?_⟩
      rw [List.find?_cons_of_neg
        (p := fun t : TakeProfitLimitOrder => decide (t.order_id = ev.order_id)) _
        (by simp [hx])]
      exact h3

theorem rts1_eq : rts1 = { tracked_orders := [rtOrder1] } := by
  simp only [rts1, create_order, create_individual_order, get_executor_config, cfg0, tb0,
    rtOrder1]
  norm_num
  rfl

theorem rts2_eq : rts2 = { tracked_orders := [rtOrder2] } := by
  simp only [rts2, rts1_eq, did_create_order, isClosePosition, truthyOptStr,
    set_exchange_order_id_first_match]
  rw [if_neg (by decide)]
  norm_num [rtOrder1, rtOrder2, get_executor_config, cfg0]

theorem rts3_eq :
    rts3 = { tracked_orders := [rtOrder3], take_profit_limit_orders := [rtTp1] } := by
  simp only [rts3, rts2_eq, did_fill_order, fillEv1, isClosePosition, truthyOptStr]
  rw [if_neg (by decide)]
  simp only [apply_entry_fill, rtOrder2, rtOrder1, tb0]
  rw [if_pos (by decide)]
  simp only [truthyOptQ]
  rw [if_pos (by norm_num)]
  simp only [create_tp_limit_order, get_executor_config, cfg0, compute_take_profit_price]
  rw [if_neg (by decide)]
  norm_num [rtOrder3, rtOrder2, rtOrder1, rtTp1, tb0]

theorem round_trip_state_eq :
    round_trip_state
      = { tracked_orders := [rtOrder4], take_profit_limit_orders := [rtTp2] } := by
  simp only [round_trip_state, rts3_eq, did_fill_order, fillEv2, isClosePosition, truthyOptStr]
  rw [if_pos (by decide)]
  simp only [apply_tp_fill, rtTp1]
  rw [if_pos (by decide)]
  simp only [apply_tp_parent_fill, rtOrder3, rtOrder2, rtOrder1]
  rw [if_pos (by decide)]
  rw [if_pos (by norm_num)]
  norm_num [rtOrder4, rtTp2, rtTp1, rtOrder3, rtOrder2, rtOrder1]

/-! Claim theorems -/

/-- C9: for a sell tracked order with `last_filled_price = 100` and
`stop_loss_delta = 0.02`, `has_current_price_reached_stop_loss` is true at
`102.0001` and false at `101.9999` (the stop-loss price is exactly `102` and a
sell triggers on strictly greater); when `last_filled_price` is absent the
reference price is `entry_price`; when no delta is configured the result is
false. -/
theorem C9_stop_loss_crossing :
    (∀ o : TrackedOrderDetails, o.side = TradeType.SELL →
        o.triple_barrier.stop_loss_delta = some (2/100) →
        o.last_filled_price = some 100 →
        has_current_price_reached_stop_loss o (1020001/10000) = true ∧
        has_current_price_reached_stop_loss o (1019999/10000) = false) ∧
    (∀ (o : TrackedOrderDetails) (p d : ℚ), o.last_filled_price = none →
        o.triple_barrier.stop_loss_delta = some d → d ≠ 0 →
        has_current_price_reached_stop_loss o p =
          (if o.side = TradeType.SELL then decide (o.entry_price * (1 + d) < p)
           else decide (p < o.entry_price * (1 - d)))) ∧
    (∀ (o : TrackedOrderDetails) (p : ℚ), o.triple_barrier.stop_loss_delta = none →
        has_current_price_reached_stop_loss o p = false) := by
  refine ⟨?_, ?_, ?_⟩
  · intro o hside hdelta hlast
    constructor <;>
      simp [has_current_price_reached_stop_loss, hside, hdelta, hlast, truthyOptQ,
        ref_price_of, compute_stop_loss_price] <;> norm_num
  · intro o p d hlast hdelta hd
    by_cases hside : o.side = TradeType.SELL <;>
      simp [has_current_price_reached_stop_loss, hside, hdelta, hlast, truthyOptQ,
        ref_price_of, compute_stop_loss_price, hd]
  · intro o p hdelta
    simp [has_current_price_reached_stop_loss, hdelta, truthyOptQ]

/-- C9 witness: the sell order `oNum0` (filled at 100, delta 0.02) evaluated at the
two boundary prices. -/
theorem C9_witness :
    has_current_price_reached_stop_loss oNum0 (1020001/10000) = true ∧
    has_current_price_reached_stop_loss oNum0 (1019999/10000) = false :=
  C9_stop_loss_crossing.1 oNum0 rfl rfl rfl

/-- C10: a zero-valued `stop_loss_delta` (resp. `take_profit_delta`) disables the
barrier exactly as an absent delta does, because the guard tests the delta for
falsiness rather than for `None`. -/
theorem C10_zero_delta_disables_barrier :
    (∀ (o : TrackedOrderDetails) (p : ℚ), o.triple_barrier.stop_loss_delta = some 0 →
      has_current_price_reached_stop_loss o p = false) ∧
    (∀ (o : TrackedOrderDetails) (p : ℚ), o.triple_barrier.take_profit_delta = some 0 →
      has_current_price_reached_take_profit o p = false) := by
  constructor
  · intro o p h
    simp [has_current_price_reached_stop_loss, h, truthyOptQ]
  · intro o p h
    simp [has_current_price_reached_take_profit, h, truthyOptQ]

/-- C10 witness: the order `oZero0` with zero deltas never reports a barrier hit. -/
theorem C10_witness :
    has_current_price_reached_stop_loss oZero0 1000000 = false ∧
    has_current_price_reached_take_profit oZero0 (1/1000000) = false :=
  ⟨C10_zero_delta_disables_barrier.1 oZero0 1000000 rfl,
   C10_zero_delta_disables_barrier.2 oZero0 (1/1000000) rfl⟩

/-- C4 (code bug evaluated): `create_individual_order` resets the per-side
in-flight latch only on the success path; when the inner exchange call raises,
the latch stays set (there is no `try/finally` in the source), for both sides. -/
theorem C4_latch_not_reset_on_raise :
    (create_individual_order ecSell0 tb0 "R" ExchangeResult.raised 5
      { }).state.is_a_sell_order_being_created = true ∧
    (create_individual_order ecSell0 tb0 "R" ExchangeResult.raised 5 { }).raised = true ∧
    (create_individual_order ecSell0 tb0 "R" (ExchangeResult.ok "o1") 5
      { }).state.is_a_sell_order_being_created = false ∧
    (create_individual_order (get_executor_config cfg0 5 TradeType.BUY 100 50) tb0 "R"
      ExchangeResult.raised 5 { }).state.is_a_buy_order_being_created = true := by
  refine ⟨rfl, rfl, rfl, rfl⟩

/-- C8: starting from empty registries, create a buy order, confirm its creation,
fill it fully, then fill the spawned take-profit limit order fully: exactly one
tracked order remains (terminated, close_type take-profit, enriched with the
exchange order id), exactly one take-profit limit order remains (fully filled),
and no active tracked orders remain. -/
theorem C8_round_trip :
    round_trip_state.tracked_orders.length = 1 ∧
    (∀ o ∈ round_trip_state.tracked_orders,
      truthyOptQ o.terminated_at = true ∧ o.close_type = some CloseType.TAKE_PROFIT ∧
      o.exchange_order_id = some "x1" ∧ o.filled_amount = 0) ∧
    round_trip_state.take_profit_limit_orders.length = 1 ∧
    (∀ tp ∈ round_trip_state.take_profit_limit_orders, tp.filled_amount = tp.amount) ∧
    get_active_tracked_orders round_trip_state none = [] := by
  rw [round_trip_state_eq]
  refine ⟨rfl, ?_, rfl, ?_, ?_⟩
  · intro o ho
    simp only [List.mem_singleton] at ho
    subst ho
    refine ⟨by norm_num [rtOrder4, rtOrder3, rtOrder2, rtOrder1, truthyOptQ], rfl, rfl, rfl⟩
  · intro tp htp
    simp only [List.mem_singleton] at htp
    subst htp
    norm_num [rtTp2, rtTp1]
  · simp only [get_active_tracked_orders, truthyOptStr]
    rw [if_neg (by decide)]
    simp only [List.filter, activeFilter, truthyQ, truthyOptQ, rtOrder4, rtOrder3, rtOrder2,
      rtOrder1]
    norm_num

/-- C1 counterexample: closing the filled sell order `oSell0` with best bid 100,
best ask 200 and a 1% delta issues the buy close at `bestBid*(1-delta)` = 99,
not at `bestAsk*(1+delta)` = 202 as the claim states. -/
theorem C1_counterexample :
    (close_filled_order cfg0 100 200 9 oSell0 OrderType.MARKET CloseType.STOP_LOSS sSell0).2
      = [Command.submit TradeType.BUY "conn" "BTC-USD" 2 OrderType.MARKET 99
          (some PositionAction.CLOSE)] ∧
    (99 : ℚ) ≠ 200 * (1 + (cfg0.limit_take_profit_price_delta_bps : ℚ) / 10000) := by
  constructor
  · simp only [close_filled_order, oSell0, cfg0]
    norm_num
  · norm_num [cfg0]

/-- C1 amended: `close_filled_order` issues exactly one opposite-side close command
for the order's full `filled_amount` — a buy at `bestBid*(1-delta_bps/10000)` when
the order's side is sell, a sell at `bestAsk*(1+delta_bps/10000)` when the side is
buy — and afterwards sets `terminated_at = now` and `close_type` on the first
tracked order matching the order's id. -/
theorem C1_close_filled_order_spec (cfg : ExcaliburConfig) (best_bid best_ask now : ℚ)
    (o : TrackedOrderDetails) (market_or_limit : OrderType) (close_type : CloseType)
    (s : PkState) (m : TrackedOrderDetails)
    (hm : s.tracked_orders.find? (fun t => decide (t.order_id = o.order_id)) = some m) :
    ((close_filled_order cfg best_bid best_ask now o market_or_limit close_type s).2
      = [if o.side = TradeType.SELL then
           Command.submit TradeType.BUY o.connector_name o.trading_pair o.filled_amount
             market_or_limit
             (best_bid * (1 - (cfg.limit_take_profit_price_delta_bps : ℚ) / 10000))
             (some PositionAction.CLOSE)
         else
           Command.submit TradeType.SELL o.connector_name o.trading_pair o.filled_amount
             market_or_limit
             (best_ask * (1 + (cfg.limit_take_profit_price_delta_bps : ℚ) / 10000))
             (some PositionAction.CLOSE)]) ∧
    ((close_filled_order cfg best_bid best_ask now o market_or_limit
        close_type s).1.tracked_orders.find? (fun t => decide (t.order_id = o.order_id))
      = some { m with terminated_at := some now, close_type := some close_type }) := by
  constructor
  · by_cases hside : o.side = TradeType.SELL <;> simp [close_filled_order, hside]
  · simpa [close_filled_order] using
      terminate_first_match_find? o.order_id now close_type s.tracked_orders m hm

/-- C1 witness: the amended close specification applied to the concrete sell order
`oSell0` in state `sSell0`. -/
theorem C1_witness :
    ((close_filled_order cfg0 100 200 9 oSell0 OrderType.MARKET CloseType.STOP_LOSS sSell0).2
      = [if oSell0.side = TradeType.SELL then
           Command.submit TradeType.BUY oSell0.connector_name oSell0.trading_pair
             oSell0.filled_amount OrderType.MARKET
             (100 * (1 - (cfg0.limit_take_profit_price_delta_bps : ℚ) / 10000))
             (some PositionAction.CLOSE)
         else
           Command.submit TradeType.SELL oSell0.connector_name oSell0.trading_pair
             oSell0.filled_amount OrderType.MARKET
             (200 * (1 + (cfg0.limit_take_profit_price_delta_bps : ℚ) / 10000))
             (some PositionAction.CLOSE)]) ∧
    ((close_filled_order cfg0 100 200 9 oSell0 OrderType.MARKET CloseType.STOP_LOSS
        sSell0).1.tracked_orders.find? (fun t => decide (t.order_id = oSell0.order_id))
      = some { oSell0 with terminated_at := some 9, close_type := some CloseType.STOP_LOSS }) :=
  C1_close_filled_order_spec cfg0 100 200 9 oSell0 OrderType.MARKET CloseType.STOP_LOSS
    sSell0 oSell0 (by rfl)

/-- C2 counterexample: `did_cancel_order` overwrites `terminated_at` on an order
whose `terminated_at` is already set: the order `oTerm0` terminated at 10 is
re-terminated at 20 by a second cancellation event for its id. -/
theorem C2_counterexample :
    (did_cancel_order 20 "b1" sTerm0).tracked_orders.map (fun o => o.terminated_at)
      = [some 20] ∧
    sTerm0.tracked_orders.map (fun o => o.terminated_at) = [some 10] ∧
    (10 : ℚ) ≠ 20 := by
  refine ⟨by rfl, by rfl, by norm_num⟩

/-- C7: a fill, cancellation or creation-confirmation event whose order id matches
no tracked order and no take-profit limit order leaves the state unchanged and
issues no command (a silent no-op, never an exception). -/
theorem C7_unmatched_event_noop (cfg : ExcaliburConfig) (now : ℚ) (tp_order_id : String)
    (s : PkState) (event_order_id : String)
    (ht : ∀ t ∈ s.tracked_orders, t.order_id ≠ event_order_id)
    (htp : ∀ t ∈ s.take_profit_limit_orders, t.order_id ≠ event_order_id) :
    (∀ ev : FillEvent, ev.order_id = event_order_id →
      did_fill_order cfg now tp_order_id ev s = (s, [])) ∧
    did_cancel_order now event_order_id s = s ∧
    (∀ position exchange_order_id,
      did_create_order position event_order_id exchange_order_id s = s) := by
  refine ⟨?_, ?_, ?_⟩
  · intro ev hev
    by_cases hpos : isClosePosition ev.position = true
    · simp only [did_fill_order, hpos, if_true]
      rw [apply_tp_fill_no_match ev _ _ (fun tp h => hev ▸ htp tp h)]
    · simp only [did_fill_order, hpos, Bool.false_eq_true, if_false]
      rw [apply_entry_fill_no_match ev _ (fun t h => hev ▸ ht t h)]
  · simp only [did_cancel_order]
    rw [terminate_first_match_no_match _ _ _ _ ht, remove_first_tp_no_match _ _ htp]
  · intro position exchange_order_id
    by_cases hpos : isClosePosition position = true
    · simp only [did_create_order, hpos, if_true]
    · simp only [did_create_order, hpos, Bool.false_eq_true, if_false]
      rw [set_exchange_order_id_no_match _ _ _ ht]

/-- C7 witness: an event for the unknown id "zzz" against the state `sSell0`. -/
theorem C7_witness :
    did_fill_order cfg0 9 "t9"
      { order_id := "zzz", amount := 1, price := 1, timestamp := 1,
        position := some "OPEN" } sSell0 = (sSell0, []) ∧
    did_cancel_order 9 "zzz" sSell0 = sSell0 ∧
    did_create_order (some "OPEN") "zzz" "x9" sSell0 = sSell0 :=
  have h := C7_unmatched_event_noop cfg0 9 "t9" sSell0 "zzz"
    (by intro t htm; simp only [sSell0, List.mem_singleton] at htm; subst htm; decide)
    (by intro t htm; simp only [sSell0] at htm; simp at htm)
  ⟨h.1 _ rfl, h.2.1, h.2.2 (some "OPEN") "x9"⟩

/-- C3: a close-position fill matching a take-profit limit order accumulates the
fill on that order (which stays in the registry), decrements the parent tracked
order's filled_amount by the event amount with no clamping, and terminates the
parent (close_type take-profit, terminated_at = the fill's timestamp) if and only
if the resulting filled_amount is exactly 0. -/
theorem C3_take_profit_fill (cfg : ExcaliburConfig) (now : ℚ) (tp_order_id : String)
    (ev : FillEvent) (s : PkState) (tp : TakeProfitLimitOrder) (m : TrackedOrderDetails)
    (hpos : ev.position = some "CLOSE")
    (htp : s.take_profit_limit_orders.find? (fun t => decide (t.order_id = ev.order_id))
      = some tp)
    (hm : s.tracked_orders.find? (fun t => decide (t.order_id = tp.tracked_order)) = some m)
    (hterm : m.terminated_at = none) :
    ((did_fill_order cfg now tp_order_id ev s).1.take_profit_limit_orders.length
      = s.take_profit_limit_orders.length) ∧
    ((did_fill_order cfg now tp_order_id ev s).1.take_profit_limit_orders.find?
        (fun t => decide (t.order_id = ev.order_id))
      = some { tp with filled_amount := tp.filled_amount + ev.amount,
                       last_filled_at := some ev.timestamp,
                       last_filled_price := some ev.price }) ∧
    (∃ m', (did_fill_order cfg now tp_order_id ev s).1.tracked_orders.find?
        (fun t => decide (t.order_id = tp.tracked_order)) = some m' ∧
      m'.filled_amount = m.filled_amount - ev.amount ∧
      ((m'.terminated_at = some ev.timestamp ∧ m'.close_type = some CloseType.TAKE_PROFIT)
        ↔ m.filled_amount - ev.amount = 0)) := by
  have hposb : isClosePosition ev.position = true := by
    simp [isClosePosition, hpos]
  obtain ⟨h1, h2, h3⟩ := apply_tp_fill_spec ev s.take_profit_limit_orders s.tracked_orders tp htp
  have h4 := apply_tp_parent_fill_find? tp.tracked_order ev.amount ev.timestamp
    s.tracked_orders m hm
  simp only [did_fill_order, hposb, if_true]
  refine ⟨by simp [h2], h3, ?_⟩
  rw [h1]
  by_cases hc : m.filled_amount - ev.amount = 0
  · rw [if_pos hc] at h4
    exact ⟨_, h4, rfl, by simp [hc]⟩
  · rw [if_neg hc] at h4
    refine ⟨_, h4, rfl, ?_⟩
    simp [hterm, hc]

/-- C3 witness: the take-profit fill event `fillEv2` applied to the concrete state
`sC3` (parent `rtOrder3` filled 1/2, take-profit `rtTp1` for the full amount). -/
theorem C3_witness :
    ((did_fill_order cfg0 7 "t2" fillEv2 sC3).1.take_profit_limit_orders.length
      = sC3.take_profit_limit_orders.length) ∧
    ((did_fill_order cfg0 7 "t2" fillEv2 sC3).1.take_profit_limit_orders.find?
        (fun t => decide (t.order_id = fillEv2.order_id))
      = some { rtTp1 with filled_amount := rtTp1.filled_amount + fillEv2.amount,
                          last_filled_at := some fillEv2.timestamp,
                          last_filled_price := some fillEv2.price }) ∧
    (∃ m', (did_fill_order cfg0 7 "t2" fillEv2 sC3).1.tracked_orders.find?
        (fun t => decide (t.order_id = rtTp1.tracked_order)) = some m' ∧
      m'.filled_amount = rtOrder3.filled_amount - fillEv2.amount ∧
      ((m'.terminated_at = some fillEv2.timestamp ∧ m'.close_type = some CloseType.TAKE_PROFIT)
        ↔ rtOrder3.filled_amount - fillEv2.amount = 0)) :=
  C3_take_profit_fill cfg0 7 "t2" fillEv2 sC3 rtTp1 rtOrder3 rfl (by rfl) (by rfl) rfl

theorem foldl_max_terminated (l : List TrackedOrderDetails) (x : TrackedOrderDetails) :
    (l.foldl (fun best o => if best.terminated_at.getD 0 < o.terminated_at.getD 0 then o
        else best) x = x ∨
      l.foldl (fun best o => if best.terminated_at.getD 0 < o.terminated_at.getD 0 then o
        else best) x ∈ l) ∧
    x.terminated_at.getD 0
      ≤ (l.foldl (fun best o => if best.terminated_at.getD 0 < o.terminated_at.getD 0 then o
          else best) x).terminated_at.getD 0 ∧
    ∀ o ∈ l, o.terminated_at.getD 0
      ≤ (l.foldl (fun best o => if best.terminated_at.getD 0 < o.terminated_at.getD 0 then o
          else best) x).terminated_at.getD 0 := by
  induction l generalizing x with
  | nil => exact ⟨Or.inl rfl, le_refl _, by simp⟩
  | cons a t ih =>
    simp only [List.foldl_cons]
    obtain ⟨hmem, hle, hall⟩ :=
      ih (if x.terminated_at.getD 0 < a.terminated_at.getD 0 then a else x)
    refine ⟨?_, ?_, ?_⟩
    · rcases hmem with h | h
      · by_cases hc : x.terminated_at.getD 0 < a.terminated_at.getD 0
        · right
          rw [h, if_pos hc]
          exact List.mem_cons_self a t
        · left
          rw [h, if_neg hc]
      · right
        exact List.mem_cons_of_mem a h
    · refine le_trans ?_ hle
      by_cases hc : x.terminated_at.getD 0 < a.terminated_at.getD 0
      · rw [if_pos hc]
        exact le_of_lt hc
      · rw [if_neg hc]
    · intro o ho
      rcases List.mem_cons.mp ho with h | h
      · subst h
        refine le_trans ?_ hle
        by_cases hc : x.terminated_at.getD 0 < o.terminated_at.getD 0
        · rw [if_pos hc]
        · rw [if_neg hc]
          exact le_of_not_lt hc
      · exact hall o h

theorem find_last_terminated_filled_key (s : PkState) (side : TradeType) (ref : String)
    (o : TrackedOrderDetails) (T : ℚ)
    (ho : o ∈ s.tracked_orders) (hfo : terminatedFilledFilter side ref o = true)
    (hT : o.terminated_at.getD 0 = T)
    (hmax : ∀ p ∈ s.tracked_orders, terminatedFilledFilter side ref p = true →
      p.terminated_at.getD 0 ≤ T) :
    ∃ r, find_last_terminated_filled_order s side ref = some r ∧
      r.terminated_at.getD 0 = T := by
  have hmem : o ∈ s.tracked_orders.filter (terminatedFilledFilter side ref) :=
    List.mem_filter.mpr ⟨ho, hfo⟩
  unfold find_last_terminated_filled_order
  cases hfl : s.tracked_orders.filter (terminatedFilledFilter side ref) with
  | nil =>
    rw [hfl] at hmem
    simp at hmem
  | cons x rest =>
    obtain ⟨hmem2, hle, hall⟩ := foldl_max_terminated rest x
    refine ⟨_, rfl, le_antisymm ?_ ?_⟩
    · have hrin : (rest.foldl (fun best o =>
          if best.terminated_at.getD 0 < o.terminated_at.getD 0 then o else best) x)
          ∈ s.tracked_orders.filter (terminatedFilledFilter side ref) := by
        rw [hfl]
        rcases hmem2 with h | h
        · rw [h]
          exact List.mem_cons_self x rest
        · exact List.mem_cons_of_mem x h
      obtain ⟨hin, hpred⟩ := List.mem_filter.mp hrin
      exact hmax _ hin hpred
    · rw [hfl] at hmem
      rcases List.mem_cons.mp hmem with h | h
      · rw [← hT, h]
        exact hle
      · rw [← hT]
        exact hall o h

/-- C5: with a nonzero quote amount and no in-flight buy latch, a terminated and
filled buy order for ref "R" whose `terminated_at` (the latest such) is `T` makes
`can_create_order` with a 5-minute cooldown return false for every `now` in
`[T, T+300)` and true for every `now ≥ T+300`; with no terminated-and-filled
order for that side and ref, no cooldown applies. -/
theorem C5_cooldown :
    (∀ (s : PkState) (q T : ℚ) (o : TrackedOrderDetails),
      q ≠ 0 → s.is_a_buy_order_being_created = false →
      o ∈ s.tracked_orders → terminatedFilledFilter TradeType.BUY "R" o = true →
      o.terminated_at.getD 0 = T →
      (∀ p ∈ s.tracked_orders, terminatedFilledFilter TradeType.BUY "R" p = true →
        p.terminated_at.getD 0 ≤ T) →
      (∀ now : ℚ, T ≤ now → now < T + 300 →
        can_create_order TradeType.BUY q "R" 5 now s = false) ∧
      (∀ now : ℚ, T + 300 ≤ now → can_create_order TradeType.BUY q "R" 5 now s = true)) ∧
    (∀ (s : PkState) (q : ℚ), q ≠ 0 → s.is_a_buy_order_being_created = false →
      (∀ p ∈ s.tracked_orders, terminatedFilledFilter TradeType.BUY "R" p = false) →
      ∀ now : ℚ, can_create_order TradeType.BUY q "R" 5 now s = true) := by
  constructor
  · intro s q T o hq hlatch ho hfo hT hmax
    obtain ⟨r, hr, hkey⟩ := find_last_terminated_filled_key s TradeType.BUY "R" o T
      ho hfo hT hmax
    constructor
    · intro now h1 h2
      have hcond : r.terminated_at.getD 0 + 5 * 60 > now := by
        rw [hkey]
        linarith
      simp [can_create_order, hq, hlatch, hr, hcond]
    · intro now h1
      have hcond : ¬ (r.terminated_at.getD 0 + 5 * 60 > now) := by
        rw [hkey]
        linarith
      simp [can_create_order, hq, hlatch, hr, hcond]
  · intro s q hq hlatch hnone now
    have hfl : s.tracked_orders.filter (terminatedFilledFilter TradeType.BUY "R") = [] := by
      rw [List.filter_eq_nil_iff]
      intro p hp
      rw [hnone p hp]
      simp
    simp [can_create_order, hq, hlatch, find_last_terminated_filled_order, hfl]

/-- C5 witness: the concrete state `sCd0` (buy order for ref "R" terminated at
1000) blocks creation at `now = 1299` and allows it at exactly `now = 1300`. -/
theorem C5_witness :
    can_create_order TradeType.BUY 10 "R" 5 1299 sCd0 = false ∧
    can_create_order TradeType.BUY 10 "R" 5 1300 sCd0 = true :=
  have h := C5_cooldown.1 sCd0 10 1000 oCd0 (by norm_num) rfl
    (List.mem_cons_self oCd0 [])
    (by norm_num [terminatedFilledFilter, truthyOptQ, oCd0]) rfl
    (by
      intro p hp _
      simp only [sCd0, List.mem_singleton] at hp
      subst hp
      exact le_of_eq rfl)
  ⟨h.1 1299 (by norm_num) (by norm_num), h.2 1300 (by norm_num)⟩

theorem get_active_none (s : PkState) :
    get_active_tracked_orders s none = s.tracked_orders.filter activeFilter := rfl

theorem mem_processed (s : PkState) (p : TrackedOrderDetails)
    (hp : p ∈ (get_filled_tracked_orders_by_side s none).1
        ++ (get_filled_tracked_orders_by_side s none).2) :
    p ∈ s.tracked_orders ∧ activeFilter p = true ∧ truthyOptQ p.last_filled_at = true := by
  simp only [get_filled_tracked_orders_by_side, get_active_tracked_orders_by_side,
    get_active_none] at hp
  rcases List.mem_append.mp hp with h | h <;>
  · obtain ⟨h1, h2⟩ := List.mem_filter.mp h
    obtain ⟨h3, _⟩ := List.mem_filter.mp h1
    obtain ⟨h5, h6⟩ := List.mem_filter.mp h3
    exact ⟨h5, h6, h2⟩

theorem mem_processed_of (s : PkState) (o : TrackedOrderDetails)
    (ho : o ∈ s.tracked_orders) (hact : activeFilter o = true)
    (hfill : truthyOptQ o.last_filled_at = true) :
    o ∈ (get_filled_tracked_orders_by_side s none).1
      ++ (get_filled_tracked_orders_by_side s none).2 := by
  simp only [get_filled_tracked_orders_by_side, get_active_tracked_orders_by_side,
    get_active_none]
  apply List.mem_append.mpr
  cases hside : o.side
  · right
    exact List.mem_filter.mpr ⟨List.mem_filter.mpr ⟨List.mem_filter.mpr ⟨ho, hact⟩,
      by simp [hside]⟩, hfill⟩
  · left
    exact List.mem_filter.mpr ⟨List.mem_filter.mpr ⟨List.mem_filter.mpr ⟨ho, hact⟩,
      by simp [hside]⟩, hfill⟩

theorem nodup_processed (s : PkState)
    (h : (s.tracked_orders.map (fun t => t.order_id)).Nodup) :
    ((((get_filled_tracked_orders_by_side s none).1
      ++ (get_filled_tracked_orders_by_side s none).2).map (fun t => t.order_id))).Nodup := by
  rw [List.map_append, List.nodup_append]
  have hsub1 : (get_filled_tracked_orders_by_side s none).1.Sublist s.tracked_orders := by
    simp only [get_filled_tracked_orders_by_side, get_active_tracked_orders_by_side,
      get_active_none]
    exact ((List.filter_sublist _).trans (List.filter_sublist _)).trans (List.filter_sublist _)
  have hsub2 : (get_filled_tracked_orders_by_side s none).2.Sublist s.tracked_orders := by
    simp only [get_filled_tracked_orders_by_side, get_active_tracked_orders_by_side,
      get_active_none]
    exact ((List.filter_sublist _).trans (List.filter_sublist _)).trans (List.filter_sublist _)
  refine ⟨(hsub1.map _).nodup h, (hsub2.map _).nodup h, ?_⟩
  intro a ha hb
  obtain ⟨x, hx, hxa⟩ := List.mem_map.mp ha
  obtain ⟨y, hy, hya⟩ := List.mem_map.mp hb
  have hxs : x.side = TradeType.SELL := by
    simp only [get_filled_tracked_orders_by_side, get_active_tracked_orders_by_side,
      get_active_none] at hx
    have := (List.mem_filter.mp (List.mem_filter.mp hx).1).2
    simpa using this
  have hys : y.side = TradeType.BUY := by
    simp only [get_filled_tracked_orders_by_side, get_active_tracked_orders_by_side,
      get_active_none] at hy
    have := (List.mem_filter.mp (List.mem_filter.mp hy).1).2
    simpa using this
  have hxy : x = y :=
    List.inj_on_of_nodup_map h (hsub1.subset hx) (hsub2.subset hy) (hxa.trans hya.symm)
  rw [hxy, hys] at hxs
  exact TradeType.noConfusion hxs

theorem filter_id_singleton_of_nodup (l : List TrackedOrderDetails)
    (h : (l.map (fun t => t.order_id)).Nodup) (o : TrackedOrderDetails) (ho : o ∈ l) :
    l.filter (fun t => decide (t.order_id = o.order_id)) = [o] := by
  induction l with
  | nil => simp at ho
  | cons x t ih =>
    rw [List.map_cons, List.nodup_cons] at h
    obtain ⟨hx, ht⟩ := h
    rcases List.mem_cons.mp ho with he | hot
    · subst he
      rw [List.filter_cons, if_pos (by simp)]
      have hnil : t.filter (fun s => decide (s.order_id = o.order_id)) = [] := by
        rw [List.filter_eq_nil_iff]
        intro p hp hpq
        apply hx
        rw [decide_eq_true_eq] at hpq
        rw [← hpq]
        exact List.mem_map_of_mem _ hp
      rw [hnil]
    · have hxo : x.order_id ≠ o.order_id := by
        intro he
        apply hx
        rw [he]
        exact List.mem_map_of_mem _ hot
      rw [List.filter_cons, if_neg (by simp [hxo])]
      exact ih ht hot

theorem check_trading_step_closes (cfg : ExcaliburConfig) (cp bb ba now : ℚ)
    (acc : PkState × List Command × List CloseAction) (p : TrackedOrderDetails) :
    ((check_trading_step cfg cp bb ba now acc p).2.2
      = acc.2.2 ++ (exit_action_of acc.1.take_profit_limit_orders cp now p).toList) ∧
    ((check_trading_step cfg cp bb ba now acc p).1.take_profit_limit_orders
      = acc.1.take_profit_limit_orders) := by
  unfold check_trading_step exit_action_of
  simp only [get_unfilled_tp_limit_orders]
  split_ifs <;> simp [close_filled_order]

theorem foldl_check_closes (cfg : ExcaliburConfig) (cp bb ba now : ℚ)
    (l : List TrackedOrderDetails) :
    ∀ acc : PkState × List Command × List CloseAction,
    (l.foldl (check_trading_step cfg cp bb ba now) acc).2.2
      = acc.2.2 ++ l.filterMap (exit_action_of acc.1.take_profit_limit_orders cp now) := by
  induction l with
  | nil =>
    intro acc
    simp
  | cons p t ih =>
    intro acc
    rw [List.foldl_cons]
    obtain ⟨hcl, htp⟩ := check_trading_step_closes cfg cp bb ba now acc p
    rw [ih _, hcl, htp, List.append_assoc, List.filterMap_cons]
    congr 1
    cases h : exit_action_of acc.1.take_profit_limit_orders cp now p <;> simp [h]

theorem exit_action_of_id (tps : List TakeProfitLimitOrder) (cp now : ℚ)
    (o : TrackedOrderDetails) (a : CloseAction)
    (h : exit_action_of tps cp now o = some a) : a.1 = o.order_id := by
  unfold exit_action_of at h
  split_ifs at h <;> simp_all <;> exact h ▸ rfl

theorem filterMap_filter_id (F : TrackedOrderDetails → Option CloseAction)
    (hF : ∀ o a, F o = some a → a.1 = o.order_id) (oid : String)
    (l : List TrackedOrderDetails) :
    (l.filterMap F).filter (fun a => decide (a.1 = oid))
      = (l.filter (fun o => decide (o.order_id = oid))).filterMap F := by
  induction l with
  | nil => rfl
  | cons x t ih =>
    rw [List.filterMap_cons, List.filter_cons]
    cases hx : F x with
    | none =>
      by_cases hid : x.order_id = oid
      · rw [if_pos (by simp [hid]), List.filterMap_cons, hx]
        exact ih
      · rw [if_neg (by simp [hid])]
        exact ih
    | some a =>
      have ha := hF x a hx
      by_cases hid : x.order_id = oid
      · rw [if_pos (by simp [hid]), List.filterMap_cons, hx, List.filter_cons,
          if_pos (by simp [ha, hid]), ih]
      · rw [if_neg (by simp [hid]), List.filter_cons, if_neg (by simp [ha, hid])]
        exact ih

/-- C6: for every active filled tracked order (distinct order ids assumed),
`check_trading_orders` performs at most one close action for it per tick, and
when the order meets both the stop-loss and the time-limit condition in the same
tick, the single close action performed is the stop-loss market close — in
particular no time-limit (or take-profit) close is issued for it that tick. -/
theorem C6_stop_loss_dominates (cfg : ExcaliburConfig)
    (current_price best_bid best_ask now : ℚ) (s : PkState) (o : TrackedOrderDetails)
    (hnodup : (s.tracked_orders.map (fun t => t.order_id)).Nodup)
    (ho : o ∈ s.tracked_orders) (hact : activeFilter o = true)
    (hfill : truthyOptQ o.last_filled_at = true) :
    (((check_trading_orders cfg current_price best_bid best_ask now s).2.2).filter
        (fun a => decide (a.1 = o.order_id))).length ≤ 1 ∧
    (has_current_price_reached_stop_loss o current_price = true →
      has_filled_order_reached_time_limit o now = true →
      ((check_trading_orders cfg current_price best_bid best_ask now s).2.2).filter
          (fun a => decide (a.1 = o.order_id))
        = [(o.order_id, CloseType.STOP_LOSS, OrderType.MARKET)]) := by
  have hkey : ((check_trading_orders cfg current_price best_bid best_ask now s).2.2).filter
        (fun a => decide (a.1 = o.order_id))
      = (exit_action_of s.take_profit_limit_orders current_price now o).toList := by
    unfold check_trading_orders
    rw [foldl_check_closes, List.nil_append,
      filterMap_filter_id _ (exit_action_of_id s.take_profit_limit_orders current_price now)
        o.order_id,
      filter_id_singleton_of_nodup _ (nodup_processed s hnodup) o
        (mem_processed_of s o ho hact hfill),
      List.filterMap_cons]
    cases h : exit_action_of s.take_profit_limit_orders current_price now o <;> simp [h]
  constructor
  · rw [hkey]
    cases exit_action_of s.take_profit_limit_orders current_price now o <;> simp
  · intro hsl _
    rw [hkey]
    simp [exit_action_of, hsl]

/-- C6 witness: applied to the concrete state `sC6`, whose order `oC6` meets both
the stop-loss and the time-limit condition at mid price 103 and time 20. -/
theorem C6_witness :
    (((check_trading_orders cfg0 103 100 200 20 sC6).2.2).filter
        (fun a => decide (a.1 = oC6.order_id))).length ≤ 1 ∧
    ((check_trading_orders cfg0 103 100 200 20 sC6).2.2).filter
        (fun a => decide (a.1 = oC6.order_id))
      = [(oC6.order_id, CloseType.STOP_LOSS, OrderType.MARKET)] :=
  have h := C6_stop_loss_dominates cfg0 103 100 200 20 sC6 oC6 (by simp [sC6])
    (List.mem_cons_self oC6 [])
    (by norm_num [activeFilter, truthyQ, truthyOptQ, oC6])
    (by norm_num [truthyOptQ, oC6])
  ⟨h.1, h.2
    (by norm_num [has_current_price_reached_stop_loss, compute_stop_loss_price,
      ref_price_of, truthyOptQ, oC6])
    (by norm_num [has_filled_order_reached_time_limit, truthyOptQ, oC6])⟩

theorem mem_terminate_first_match_of_ne (order_id : String) (now : ℚ)
    (close_type : CloseType) (l : List TrackedOrderDetails) (o : TrackedOrderDetails)
    (ho : o ∈ l) (hne : o.order_id ≠ order_id) :
    o ∈ terminate_first_match order_id now close_type l := by
  induction l with
  | nil => simp at ho
  | cons x t ih =>
    rcases List.mem_cons.mp ho with he | hot
    · subst he
      rw [terminate_first_match, if_neg hne]
      exact List.mem_cons_self o _
    · by_cases hx : x.order_id = order_id
      · rw [terminate_first_match, if_pos hx]
        exact List.mem_cons_of_mem _ hot
      · rw [terminate_first_match, if_neg hx]
        exact List.mem_cons_of_mem _ (ih hot)

theorem check_trading_step_mem (cfg : ExcaliburConfig) (cp bb ba now : ℚ)
    (acc : PkState × List Command × List CloseAction) (p : TrackedOrderDetails)
    (o : TrackedOrderDetails) (hne : p.order_id ≠ o.order_id)
    (hmem : o ∈ acc.1.tracked_orders) :
    o ∈ (check_trading_step cfg cp bb ba now acc p).1.tracked_orders := by
  unfold check_trading_step
  by_cases h1 : has_current_price_reached_stop_loss p cp = true
  · rw [if_pos h1]
    exact mem_terminate_first_match_of_ne _ _ _ _ o hmem (fun h => hne h.symm)
  · rw [if_neg h1]
    by_cases h2 : (decide ((get_unfilled_tp_limit_orders acc.1 p).length = 0) &&
        has_current_price_reached_take_profit p cp) = true
    · rw [if_pos h2]
      exact mem_terminate_first_match_of_ne _ _ _ _ o hmem (fun h => hne h.symm)
    · rw [if_neg h2]
      by_cases h3 : has_filled_order_reached_time_limit p now = true
      · rw [if_pos h3]
        exact mem_terminate_first_match_of_ne _ _ _ _ o hmem (fun h => hne h.symm)
      · rw [if_neg h3]
        exact hmem

theorem foldl_check_mem (cfg : ExcaliburConfig) (cp bb ba now : ℚ)
    (l : List TrackedOrderDetails) (o : TrackedOrderDetails) :
    ∀ acc : PkState × List Command × List CloseAction,
    (∀ p ∈ l, p.order_id ≠ o.order_id) → o ∈ acc.1.tracked_orders →
    o ∈ (l.foldl (check_trading_step cfg cp bb ba now) acc).1.tracked_orders := by
  induction l with
  | nil =>
    intro acc _ hmem
    exact hmem
  | cons p t ih =>
    intro acc hne hmem
    rw [List.foldl_cons]
    exact ih _ (fun q hq => hne q (List.mem_cons_of_mem p hq))
      (check_trading_step_mem cfg cp bb ba now acc p o
        (hne p (List.mem_cons_self p t)) hmem)

/-- C2 amended: the periodic `check_orders` loop never touches an order whose
`terminated_at` is already set — given distinct order ids, every already-terminated
tracked order is still present unchanged afterwards.  (The unconditional overwrites
in `did_cancel_order` / `close_filled_order` are the counterexample to the original
claim.) -/
theorem C2_check_orders_preserves_terminated (cfg : ExcaliburConfig)
    (current_price best_bid best_ask now : ℚ) (s : PkState)
    (hnodup : (s.tracked_orders.map (fun t => t.order_id)).Nodup)
    (o : TrackedOrderDetails) (ho : o ∈ s.tracked_orders)
    (hterm : truthyOptQ o.terminated_at = true) :
    o ∈ (check_orders cfg current_price best_bid best_ask now s).1.tracked_orders := by
  show o ∈ (check_trading_orders cfg current_price best_bid best_ask now s).1.tracked_orders
  unfold check_trading_orders
  apply foldl_check_mem
  · intro p hp he
    obtain ⟨hpmem, hpact, _⟩ := mem_processed s p hp
    have hpo : p ≠ o := by
      intro h
      subst h
      rw [activeFilter, hterm] at hpact
      simp at hpact
    exact hpo (List.inj_on_of_nodup_map hnodup hpmem ho he)
  · exact ho

/-- C2 witness: the already-terminated order `oTerm0` survives a full
`check_orders` tick unchanged. -/
theorem C2_witness :
    oTerm0 ∈ (check_orders cfg0 100 100 100 50 sTerm0).1.tracked_orders :=
  C2_check_orders_preserves_terminated cfg0 100 100 100 50 sTerm0 (by simp [sTerm0])
    oTerm0 (List.mem_cons_self oTerm0 [])
    (by norm_num [truthyOptQ, oTerm0])
